import Mathlib

/-!
# Verification of the vehicle-hub signal pipeline

Shallow embedding of the `vehicle-hub` repository:

* `src/vehicle_state/stabilizers.py` — `HoldLatch`, `FlashDetector`, `EMA`,
  `OutlierClamp`;
* `src/vehicle_state/mapping.py` — `AnalogMap`, `PinMap`, `normalize_analog`;
* `src/vehicle_state/transformer.py` — `VehicleStateTransformer`;
* `src/vehicle_hub.py` — `VehicleStateBuilder`, the state pump and the
  WebSocket handler (the publishing path).

JSON values are modelled by the inductive `Json`; Python numbers are modelled
by `ℚ` (exact arithmetic in place of IEEE floats, which keeps every rounding
step explicit); Python dicts by association lists with first-match lookup and
replace-or-append insertion, which reproduces insertion-order semantics.
Python code that can raise is modelled in `Option`, `none` standing for an
uncaught exception.
-/

/-- A JSON value as produced by `json.loads`.  Python distinguishes `bool`
from `int` only nominally (`isinstance(True, int)` holds); the two are kept
as separate constructors so that the distinction stays visible. -/
inductive Json where
  | null : Json
  | bool (b : Bool) : Json
  | int (n : Int) : Json
  | num (q : ℚ) : Json
  | str (s : String) : Json
  | arr (elems : List Json) : Json
  | obj (fields : List (String × Json)) : Json

/-- First-match lookup in an association list (Python `dict` access: keys are
unique when the list is built with `dictSet`). -/
def dictGet {α : Type} : List (String × α) → String → Option α
  | [], _ => none
  | (k1, v1) :: l, k => if k = k1 then some v1 else dictGet l k

/-- Python `dict` assignment: replace the value in place if the key exists,
otherwise append (insertion order preserved). -/
def dictSet {α : Type} : List (String × α) → String → α → List (String × α)
  | [], k, v => [(k, v)]
  | (k1, v1) :: l, k, v => if k = k1 then (k, v) :: l else (k1, v1) :: dictSet l k v

/-- Python truthiness of a JSON value (`bool(x)` / `x or y` tests). -/
def pyTruthy : Json → Bool
  | Json.null => false
  | Json.bool b => b
  | Json.int n => n != 0
  | Json.num q => q != 0
  | Json.str s => !s.isEmpty
  | Json.arr l => !l.isEmpty
  | Json.obj l => !l.isEmpty

/-- The underlying field list of a JSON object; `none` on any other value
(a Python `.get`/`dict()` call on it would raise). -/
def Json.asObj : Json → Option (List (String × Json))
  | Json.obj l => some l
  | _ => none

/-- Python's `x is None` test on a JSON value. -/
def Json.isNull : Json → Bool
  | Json.null => true
  | _ => false

/-- Truncation of a rational toward zero, the behaviour of Python `int()` on
a float. -/
def ratTrunc (q : ℚ) : Int :=
  if 0 ≤ q then ⌊q⌋ else ⌈q⌉

/-- Python `int(x)` on a JSON value: bools are ints (`int(True) = 1`), floats
truncate toward zero, strings parse as integer literals, everything else
raises.  (Strings with surrounding whitespace or underscores, which CPython
would also accept, are outside the model; the hardware frames carry plain
JSON numbers.) -/
def pyToInt : Json → Option Int
  | Json.int n => some n
  | Json.bool b => some (if b then 1 else 0)
  | Json.num q => some (ratTrunc q)
  | Json.str s => s.toInt?
  | _ => none

/-- Python `float(x)` on a JSON value.  Fractional numeric strings are not
modelled (the frames carry JSON numbers); integer strings parse. -/
def pyToFloat : Json → Option ℚ
  | Json.int n => some (n : ℚ)
  | Json.bool b => some (if b then 1 else 0)
  | Json.num q => some q
  | Json.str s => (s.toInt?).map fun n => (n : ℚ)
  | _ => none

/-- Round-half-to-even on integers scaled from a rational, the tie rule of
Python `round`. -/
def roundHalfEven (q : ℚ) : Int :=
  let f := q - ⌊q⌋
  if f < 1/2 then ⌊q⌋
  else if 1/2 < f then ⌊q⌋ + 1
  else if ⌊q⌋ % 2 = 0 then ⌊q⌋ else ⌊q⌋ + 1

/-- Python `round(q, n)` for `n` decimal places (exact-rational idealisation
of the float rounding in the source). -/
def pyRound (q : ℚ) (n : ℕ) : ℚ :=
  (roundHalfEven (q * 10 ^ n) : ℚ) / 10 ^ n

/-- Lookup of `key` inside the object stored at no particular depth: returns
the field of `j` when `j` is an object. -/
def jGet (j : Json) (key : String) : Option Json :=
  match j with
  | Json.obj l => dictGet l key
  | _ => none

/-- Two-level lookup `j[k1][k2]` for reading snapshot sub-objects. -/
def jGet2 (j : Json) (k1 k2 : String) : Option Json :=
  match jGet j k1 with
  | some j1 => jGet j1 k2
  | none => none

attribute [local semireducible] Rat.add Rat.mul Rat.inv Rat.sub Rat.ofScientific

/-! ## Stabilizer primitives (`src/vehicle_state/stabilizers.py`) -/

/-- `HoldLatch`: digital stabilizer requiring a raw value to stay unchanged
for `min_stable_ms` before acceptance, optionally holding ON for
`hold_on_ms` after an ON-stabilization. -/
structure HoldLatch where
  min_stable_ms : Int := 30
  hold_on_ms : Int := 0
  raw_last : Bool := false
  raw_last_change_ms : Int := 0
  stable : Bool := false
  stable_since_ms : Int := 0
  hold_until_ms : Int := 0
deriving DecidableEq

/-- `HoldLatch.update(raw, now_ms)`: returns the externally visible stable
value and the mutated latch. -/
def HoldLatch.update (s : HoldLatch) (raw : Bool) (now_ms : Int) : Bool × HoldLatch :=
  let s := if raw != s.raw_last then
             { s with raw_last := raw, raw_last_change_ms := now_ms }
           else s
  let s := if s.min_stable_ms ≤ now_ms - s.raw_last_change_ms then
             if s.stable != raw then
               let s := { s with stable := raw, stable_since_ms := now_ms }
               if s.stable && decide (0 < s.hold_on_ms) then
                 { s with hold_until_ms := now_ms + s.hold_on_ms }
               else s
             else s
           else s
  let out := if decide (0 < s.hold_on_ms) && !s.stable && decide (now_ms < s.hold_until_ms)
             then true else s.stable
  (out, s)

/-- Outputs of a sequence of `HoldLatch.update` calls, threading the latch
state through the trace of `(raw, now_ms)` samples. -/
def HoldLatch.runOutputs (s : HoldLatch) : List (Bool × Int) → List Bool
  | [] => []
  | (v, t) :: rest =>
    let p := s.update v t
    p.1 :: p.2.runOutputs rest

/-- `FlashDetector`: reports flashing when at least `min_toggles` toggles of
the input were seen within the trailing `window_ms`. -/
structure FlashDetector where
  window_ms : Int := 1200
  min_toggles : Nat := 2
  last : Bool := false
  toggle_times_ms : List Int := []
deriving DecidableEq

/-- `FlashDetector.update(value, now_ms)`: records a toggle when the value
changed, prunes toggles older than the window, and reports whether the
retained count reaches `min_toggles`. -/
def FlashDetector.update (s : FlashDetector) (value : Bool) (now_ms : Int) :
    Bool × FlashDetector :=
  let s := if value != s.last then
             { s with last := value, toggle_times_ms := s.toggle_times_ms ++ [now_ms] }
           else s
  let cutoff := now_ms - s.window_ms
  let kept := s.toggle_times_ms.filter fun t => cutoff ≤ t
  (decide (s.min_toggles ≤ kept.length), { s with toggle_times_ms := kept })

/-- Outputs of a sequence of `FlashDetector.update` calls over a trace of
`(value, now_ms)` samples. -/
def FlashDetector.runOutputs (s : FlashDetector) : List (Bool × Int) → List Bool
  | [] => []
  | (v, t) :: rest =>
    let p := s.update v t
    p.1 :: p.2.runOutputs rest

/-- `EMA`: exponential moving average with smoothing factor `alpha`. -/
structure EMA where
  alpha : ℚ := 1/4
  has : Bool := false
  v : ℚ := 0
deriving DecidableEq

/-- `EMA.update(x)`: first call initializes the accumulator, later calls blend
`alpha * x + (1 - alpha) * acc`. -/
def EMA.update (s : EMA) (x : ℚ) : ℚ × EMA :=
  if !s.has then (x, { s with has := true, v := x })
  else
    let v := s.alpha * x + (1 - s.alpha) * s.v
    (v, { s with v := v })

/-- `OutlierClamp`: limits the per-sample change from the previously accepted
value to `max_step` in magnitude. -/
structure OutlierClamp where
  max_step : ℚ := 80
  has : Bool := false
  last : ℚ := 0
deriving DecidableEq

/-- `OutlierClamp.update(x)`: first sample accepted verbatim, later samples
clamped toward the previous accepted value. -/
def OutlierClamp.update (s : OutlierClamp) (x : ℚ) : ℚ × OutlierClamp :=
  if !s.has then (x, { s with has := true, last := x })
  else
    let d := x - s.last
    let x := if s.max_step < d then s.last + s.max_step
             else if d < -s.max_step then s.last - s.max_step
             else x
    (x, { s with last := x })

/-! ## Pin mapping and normalization (`src/vehicle_state/mapping.py`) -/

/-- Configuration of one analog channel. -/
structure AnalogMap where
  name : String
  min : Int := 0
  max : Int := 1023
  invert : Bool := false
deriving DecidableEq

/-- The pin map: digital pin → signal name, analog pin → channel config. -/
structure PinMap where
  digital : List (String × String)
  analog : List (String × AnalogMap)

/-- `normalize_analog(raw, amap)`: clamp into `[min, max]`, map linearly to
`[0, 1]`, optionally invert, clamp the result into `[0, 1]`; degenerate
ranges return `0`. -/
def normalize_analog (raw : ℚ) (amap : AnalogMap) : ℚ :=
  let lo : ℚ := (amap.min : ℚ)
  let hi : ℚ := (amap.max : ℚ)
  if hi ≤ lo then 0
  else
    let x := if raw < lo then lo else raw
    let x := if hi < x then hi else x
    let n := (x - lo) / (hi - lo)
    let n := if amap.invert then 1 - n else n
    max 0 (min 1 n)

/-! ## The publishing builder (`src/vehicle_hub.py`, `VehicleStateBuilder`) -/

/-- State of `vehicle_hub.VehicleStateBuilder`.  `seq` holds the raw JSON
value stored by `update_from_uno` (always an int or a bool, since Python's
`isinstance(x, int)` also accepts bools); `analog_state` is the per-channel
EMA accumulator dict (`defaultdict(lambda: {"smooth": None})`). -/
structure VehicleStateBuilder where
  seq : Json := Json.int 0
  last_rx_ms : Option Int := none
  last_frame : Json := Json.obj []
  analog_state : List (String × Option ℚ) := []

/-- The freshly constructed builder (`VehicleStateBuilder.__init__`). -/
def initialBuilder : VehicleStateBuilder := {}

/-- `update_from_uno(frame)`: refresh `last_rx_ms` and `last_frame` on every
accepted `vehicle_inputs` frame; adopt the frame's `seq` only when
`isinstance(frame.get("seq"), int)` — which in Python is true for ints and
bools. -/
def VehicleStateBuilder.update_from_uno (b : VehicleStateBuilder)
    (fields : List (String × Json)) (now_ms : Int) : VehicleStateBuilder :=
  let seq := match dictGet fields "seq" with
    | some (Json.int n) => Json.int n
    | some (Json.bool v) => Json.bool v
    | _ => b.seq
  { b with last_rx_ms := some now_ms, seq := seq, last_frame := Json.obj fields }

/-- `x = frame.get(key, 0); ... int(x or 0)` — the uptime/heartbeat reads of
`build`: a falsy value becomes `0`, a truthy one goes through `int()`
(raising, hence `none`, when unparsable). -/
def pyOr0ToInt (j : Json) : Option Int :=
  if pyTruthy j then pyToInt j else some 0

/-- `frame.get(key) or {}` followed by use as a dict: a falsy value becomes
the empty dict, a truthy non-dict raises at the first `.get` on it. -/
def jsonOrEmptyObj (v : Option Json) : Option (List (String × Json)) :=
  let j := v.getD Json.null
  if pyTruthy j then j.asObj else some []

/-- The null analog triple `{"raw": None, "smooth": None, "norm": None}`. -/
def nullTriple : Json :=
  Json.obj [("raw", Json.null), ("smooth", Json.null), ("norm", Json.null)]

/-- One EMA blending step of `VehicleStateBuilder._smooth` with its default
`alpha = 0.15`. -/
def hubEmaStep (raw : Int) (prev : ℚ) : ℚ :=
  (15 / 100 : ℚ) * (raw : ℚ) + (85 / 100 : ℚ) * prev

/-- The `a(name)` helper of `VehicleStateBuilder.build`: missing, `null` or
unparsable samples yield the null triple and leave the smoothing state
untouched; otherwise the sample is smoothed (`_smooth`, mutating the state)
and the entry is `{"raw": raw_i, "smooth": round(smooth, 2),
"norm": round(raw_i / 1023.0, 4)}`. -/
def hubAnalogEntry (st : List (String × Option ℚ)) (analog : List (String × Json))
    (name : String) : Json × List (String × Option ℚ) :=
  let raw := (dictGet analog name).getD Json.null
  if raw.isNull then (nullTriple, st)
  else
    match pyToInt raw with
    | none => (nullTriple, st)
    | some raw_i =>
      let prev := (dictGet st name).getD none
      let smooth : ℚ := match prev with
        | none => (raw_i : ℚ)
        | some v => hubEmaStep raw_i v
      (Json.obj [("raw", Json.int raw_i),
                 ("smooth", Json.num (pyRound smooth 2)),
                 ("norm", Json.num (pyRound ((raw_i : ℚ) / 1023) 4))],
       dictSet st name (some smooth))

/-- The snapshot dict literal of `VehicleStateBuilder.build()` together with
the builder carrying the smoothing state mutated by the six `a(...)` calls,
once the fallible reads (`inputs`, `analog`, `uptime_ms`, `heartbeat`) have
succeeded. -/
def hubSnapshot (stale_after_ms : Int) (b : VehicleStateBuilder) (ts : Int)
    (inputs analog : List (String × Json)) (uptime heartbeat : Int) :
    Json × VehicleStateBuilder :=
  let stale : Bool := match b.last_rx_ms with
    | none => true
    | some r => decide (stale_after_ms < ts - r)
  let d : String → Bool := fun pin => pyTruthy ((dictGet inputs pin).getD (Json.bool false))
  let p0 := hubAnalogEntry b.analog_state analog "A0"
  let p1 := hubAnalogEntry p0.2 analog "A1"
  let p2 := hubAnalogEntry p1.2 analog "A2"
  let p3 := hubAnalogEntry p2.2 analog "A3"
  let p4 := hubAnalogEntry p3.2 analog "A4"
  let p5 := hubAnalogEntry p4.2 analog "A5"
  (Json.obj [
    ("type", Json.str "vehicle_state"),
    ("ts_ms", Json.int ts),
    ("source", Json.str "bbb_vehicle_hub"),
    ("seq", b.seq),
    ("uptime_ms", Json.int uptime),
    ("heartbeat", Json.int heartbeat),
    ("indicators", Json.obj [
      ("left", Json.bool (d "D2")),
      ("right", Json.bool (d "D3")),
      ("left_flashing", Json.bool (d "D2")),
      ("right_flashing", Json.bool (d "D3")),
      ("high_beam", Json.bool (d "D4"))]),
    ("warnings", Json.obj [
      ("brake", Json.bool (d "D5")),
      ("oil", Json.bool (d "D6")),
      ("charge", Json.bool (d "D7")),
      ("door", Json.bool (d "D8"))]),
    ("spares", Json.obj [
      ("spare_1", Json.bool (d "D9"))]),
    ("analog", Json.obj [
      ("fuel_sender_raw", p0.1),
      ("coolant_sender_raw", p1.1),
      ("aux_analog_2", p2.1),
      ("aux_analog_3", p3.1),
      ("aux_analog_4", p4.1),
      ("aux_analog_5", p5.1)]),
    ("_health", Json.obj [
      ("stale", Json.bool stale),
      ("last_rx_ms", match b.last_rx_ms with
        | none => Json.null
        | some r => Json.int r)])],
   { b with analog_state := p5.2 })

/-- `VehicleStateBuilder.build()` of `vehicle_hub.py`, parameterised by the
configured `stale_after_ms` (env `VEHICLE_HUB_STALE_AFTER_MS`, default 750)
and the current monotonic time `ts`.  Returns the snapshot together with the
builder carrying the mutated smoothing state, or `none` when the Python code
would raise (non-dict truthy `inputs`/`analog`, unparsable truthy
`uptime_ms`/`heartbeat`); every raising path is reached before any smoothing
state is mutated, so a failed build leaves the builder unchanged. -/
def hubFrame (b : VehicleStateBuilder) : Json :=
  if pyTruthy b.last_frame then b.last_frame else Json.obj []

def hubBuild (stale_after_ms : Int) (b : VehicleStateBuilder) (ts : Int) :
    Option (Json × VehicleStateBuilder) :=
  match (hubFrame b).asObj with
  | none => none
  | some fl =>
    match jsonOrEmptyObj (dictGet fl "inputs"), jsonOrEmptyObj (dictGet fl "analog"),
          pyOr0ToInt ((dictGet fl "uptime_ms").getD (Json.int 0)),
          pyOr0ToInt ((dictGet fl "heartbeat").getD (Json.int 0)) with
    | some inputs, some analog, some uptime, some heartbeat =>
      some (hubSnapshot stale_after_ms b ts inputs analog uptime heartbeat)
    | _, _, _, _ => none

/-- The `serial_reader_task` acceptance test: only objects whose `type` field
equals the string `vehicle_inputs` reach `update_from_uno`. -/
def isVehicleInputs (fields : List (String × Json)) : Bool :=
  match dictGet fields "type" with
  | some (Json.str s) => s == "vehicle_inputs"
  | _ => false

/-- The two events that touch the builder: an inbound serial line parsed to a
JSON object (non-objects crash the reader loop before `update_from_uno` and
leave the builder unchanged), and one tick of the `state_pump`. -/
inductive HubEvent where
  | frame (fields : List (String × Json)) (t : Int) : HubEvent
  | tick (ts : Int) : HubEvent

/-- Effect of one event on the builder state.  A pump tick whose build
raises kills the pump task without mutating the builder (all raising paths
of `build` precede any smoothing-state mutation). -/
def applyEvent (stale_after_ms : Int) (b : VehicleStateBuilder) : HubEvent → VehicleStateBuilder
  | HubEvent.frame fields t =>
    if isVehicleInputs fields then b.update_from_uno fields t else b
  | HubEvent.tick ts =>
    match hubBuild stale_after_ms b ts with
    | some p => p.2
    | none => b

/-- Builder state after a sequence of inbound frames and pump ticks. -/
def applyEvents (stale_after_ms : Int) (b : VehicleStateBuilder) (events : List HubEvent) :
    VehicleStateBuilder :=
  events.foldl (applyEvent stale_after_ms) b

/-! ## The transformer (`src/vehicle_state/transformer.py`) -/

/-- State of `VehicleStateTransformer`: per-name stabilizer dicts plus the
staleness bookkeeping. -/
structure VehicleStateTransformer where
  pinmap : PinMap
  dig_stab : List (String × HoldLatch)
  flash : List (String × FlashDetector)
  analog_clamp : List (String × OutlierClamp)
  analog_ema : List (String × EMA)
  stale_timeout_ms : Int := 1500
  last_frame_ms : Int := 0

/-- Indicator names that get a hold-on latch and a flash detector in
`__post_init__`. -/
def isIndicatorName (n : String) : Bool :=
  n == "left_indicator" || n == "right_indicator"

/-- `VehicleStateTransformer.__post_init__`: one `HoldLatch(min_stable_ms=30,
hold_on_ms=80 or 0)` per digital name, a `FlashDetector(1200, 2)` for the two
indicator names, and an `OutlierClamp(120)` / `EMA(0.25)` per analog name. -/
def mkTransformer (pm : PinMap) : VehicleStateTransformer :=
  let dig := pm.digital.foldl
    (fun acc p =>
      dictSet acc p.2 { min_stable_ms := 30,
                        hold_on_ms := if isIndicatorName p.2 then 80 else 0 })
    []
  let fl := pm.digital.foldl
    (fun acc p => if isIndicatorName p.2 then
        dictSet acc p.2 { window_ms := 1200, min_toggles := 2 } else acc)
    []
  let cl := pm.analog.foldl (fun acc p => dictSet acc p.2.name { max_step := 120 }) []
  let em := pm.analog.foldl (fun acc p => dictSet acc p.2.name { alpha := 1/4 }) []
  { pinmap := pm, dig_stab := dig, flash := fl, analog_clamp := cl, analog_ema := em }

/-- The digital loop of `transform`: per mapped pin, read the raw bit
(default `False`), run it through the channel's `HoldLatch`, record the
stable value, and feed flash-tracked channels' detectors with the stable
value.  `none` models the `KeyError` of a missing `_dig_stab[name]`. -/
def transformDigitalGo (raw_inputs : List (String × Json)) (now_ms : Int)
    (named flashing : List (String × Bool))
    (dig : List (String × HoldLatch)) (fl : List (String × FlashDetector)) :
    List (String × String) →
    Option (List (String × Bool) × List (String × Bool) ×
            List (String × HoldLatch) × List (String × FlashDetector))
  | [] => some (named, flashing, dig, fl)
  | (d_pin, name) :: rest =>
    let raw_val := pyTruthy ((dictGet raw_inputs d_pin).getD (Json.bool false))
    match dictGet dig name with
    | none => none
    | some latch =>
      let p := latch.update raw_val now_ms
      let named2 := dictSet named name p.1
      let dig2 := dictSet dig name p.2
      match dictGet fl name with
      | none => transformDigitalGo raw_inputs now_ms named2 flashing dig2 fl rest
      | some det =>
        let q := det.update p.1 now_ms
        transformDigitalGo raw_inputs now_ms named2 (dictSet flashing name q.1)
          dig2 (dictSet fl name q.2) rest

/-- The analog loop of `transform`: a missing, `null` or unparsable sample
skips the channel entirely (`continue`); otherwise the raw value is clamped,
EMA-smoothed, normalized, and the entry is emitted with truncated raw,
2-decimal smooth and 4-decimal norm.  `none` models a `KeyError` of
`_analog_clamp[name]` / `_analog_ema[name]`. -/
def transformAnalogGo (raw_analog : List (String × Json))
    (out : List (String × Json))
    (cl : List (String × OutlierClamp)) (em : List (String × EMA)) :
    List (String × AnalogMap) →
    Option (List (String × Json) × List (String × OutlierClamp) × List (String × EMA))
  | [] => some (out, cl, em)
  | (a_pin, amap) :: rest =>
    let raw := (dictGet raw_analog a_pin).getD Json.null
    if raw.isNull then transformAnalogGo raw_analog out cl em rest
    else
      match pyToFloat raw with
      | none => transformAnalogGo raw_analog out cl em rest
      | some raw_f =>
        match dictGet cl amap.name, dictGet em amap.name with
        | some clamp, some ema =>
          let c := clamp.update raw_f
          let s := ema.update c.1
          let norm := normalize_analog s.1 amap
          let entry := Json.obj [("raw", Json.int (ratTrunc raw_f)),
                                 ("smooth", Json.num (pyRound s.1 2)),
                                 ("norm", Json.num (pyRound norm 4))]
          transformAnalogGo raw_analog (dictSet out amap.name entry)
            (dictSet cl amap.name c.2) (dictSet em amap.name s.2) rest
        | _, _ => none

/-- `VehicleStateTransformer.transform(frame)`, with the wall-clock read
`int(time.time() * 1000)` passed in as `now_ms`.  Returns the snapshot and
the transformer with updated stabilizer state, or `none` when the Python
code would raise (non-dict truthy `inputs`/`analog`, unparsable
`seq`/`uptime_ms`/`heartbeat`, missing stabilizer key). -/
def VehicleStateTransformer.transform (T : VehicleStateTransformer)
    (frame : List (String × Json)) (now_ms : Int) :
    Option (Json × VehicleStateTransformer) :=
  match jsonOrEmptyObj (dictGet frame "inputs"), jsonOrEmptyObj (dictGet frame "analog") with
  | some raw_inputs, some raw_analog =>
    match transformDigitalGo raw_inputs now_ms [] [] T.dig_stab T.flash T.pinmap.digital with
    | none => none
    | some (named, flashing, dig2, fl2) =>
      match transformAnalogGo raw_analog [] T.analog_clamp T.analog_ema T.pinmap.analog with
      | none => none
      | some (analog_out, cl2, em2) =>
        match pyToInt ((dictGet frame "seq").getD (Json.int 0)),
              pyToInt ((dictGet frame "uptime_ms").getD (Json.int 0)),
              pyToInt ((dictGet frame "heartbeat").getD (Json.int 0)) with
        | some seq, some uptime, some heartbeat =>
          some (Json.obj [
            ("type", Json.str "vehicle_state"),
            ("ts_ms", Json.int now_ms),
            ("source", Json.str "bbb_vehicle_hub"),
            ("seq", Json.int seq),
            ("uptime_ms", Json.int uptime),
            ("heartbeat", Json.int heartbeat),
            ("indicators", Json.obj [
              ("left", Json.bool ((dictGet named "left_indicator").getD false)),
              ("right", Json.bool ((dictGet named "right_indicator").getD false)),
              ("left_flashing", Json.bool ((dictGet flashing "left_indicator").getD false)),
              ("right_flashing", Json.bool ((dictGet flashing "right_indicator").getD false)),
              ("high_beam", Json.bool ((dictGet named "high_beam").getD false))]),
            ("warnings", Json.obj [
              ("brake", Json.bool ((dictGet named "brake_warning").getD false)),
              ("oil", Json.bool ((dictGet named "oil_pressure").getD false)),
              ("charge", Json.bool ((dictGet named "charge_lamp").getD false)),
              ("door", Json.bool ((dictGet named "door_ajar").getD false))]),
            ("spares", Json.obj [
              ("spare_1", Json.bool ((dictGet named "spare_1").getD false))]),
            ("analog", Json.obj analog_out),
            ("_health", Json.obj [
              ("stale", Json.bool false)])],
            { T with last_frame_ms := now_ms, dig_stab := dig2, flash := fl2,
                     analog_clamp := cl2, analog_ema := em2 })
        | _, _, _ => none
  | _, _ => none

/-! ## Snapshot schema and the broadcast orchestration (`src/vehicle_hub.py`) -/

/-- Typed-presence tests for the snapshot checker. -/
def isBoolJ : Option Json → Bool
  | some (Json.bool _) => true
  | _ => false

/-- The value is present and an int. -/
def isIntJ : Option Json → Bool
  | some (Json.int _) => true
  | _ => false

/-- The value is present and a string. -/
def isStrJ : Option Json → Bool
  | some (Json.str _) => true
  | _ => false

/-- The value is present and a Python int — which includes bools, since
`isinstance(True, int)` holds and a bool `seq` passes the guard in
`update_from_uno`. -/
def isPyIntJ : Option Json → Bool
  | some (Json.int _) => true
  | some (Json.bool _) => true
  | _ => false

/-- The value is present and either `null` or an int. -/
def isNullOrIntJ : Option Json → Bool
  | some Json.null => true
  | some (Json.int _) => true
  | _ => false

/-- An analog entry: present, an object, and either the null triple or a
fully populated `raw` (int) / `smooth` (number) / `norm` (number) triple —
every key present in both cases. -/
def analogEntryOk : Option Json → Bool
  | some (Json.obj l) =>
    (match dictGet l "raw", dictGet l "smooth", dictGet l "norm" with
     | some Json.null, some Json.null, some Json.null => true
     | some (Json.int _), some (Json.num _), some (Json.num _) => true
     | _, _, _ => false)
  | _ => false

/-- The full fixed key set of a published `vehicle_state` snapshot with the
types the outbound contract promises: every key present regardless of
upstream completeness. -/
def completeSchema (j : Json) : Bool :=
  match j with
  | Json.obj l =>
    (match dictGet l "type" with
     | some (Json.str s) => s == "vehicle_state"
     | _ => false) &&
    isIntJ (dictGet l "ts_ms") &&
    isStrJ (dictGet l "source") &&
    isPyIntJ (dictGet l "seq") &&
    isIntJ (dictGet l "uptime_ms") &&
    isIntJ (dictGet l "heartbeat") &&
    (match dictGet l "indicators" with
     | some (Json.obj il) =>
       isBoolJ (dictGet il "left") && isBoolJ (dictGet il "right") &&
       isBoolJ (dictGet il "left_flashing") && isBoolJ (dictGet il "right_flashing") &&
       isBoolJ (dictGet il "high_beam")
     | _ => false) &&
    (match dictGet l "warnings" with
     | some (Json.obj wl) =>
       isBoolJ (dictGet wl "brake") && isBoolJ (dictGet wl "oil") &&
       isBoolJ (dictGet wl "charge") && isBoolJ (dictGet wl "door")
     | _ => false) &&
    (match dictGet l "spares" with
     | some (Json.obj sl) => isBoolJ (dictGet sl "spare_1")
     | _ => false) &&
    (match dictGet l "analog" with
     | some (Json.obj al) =>
       analogEntryOk (dictGet al "fuel_sender_raw") &&
       analogEntryOk (dictGet al "coolant_sender_raw") &&
       analogEntryOk (dictGet al "aux_analog_2") &&
       analogEntryOk (dictGet al "aux_analog_3") &&
       analogEntryOk (dictGet al "aux_analog_4") &&
       analogEntryOk (dictGet al "aux_analog_5")
     | _ => false) &&
    (match dictGet l "_health" with
     | some (Json.obj hl) =>
       isBoolJ (dictGet hl "stale") && isNullOrIntJ (dictGet hl "last_rx_ms")
     | _ => false)
  | _ => false

/-- The hello handshake `ws_handler` sends on connect, before any snapshot. -/
def helloMsg (ts : Int) : Json :=
  Json.obj [("type", Json.str "hello"),
            ("service", Json.str "vehicle_hub"),
            ("source", Json.str "bbb_vehicle_hub"),
            ("ts_ms", Json.int ts)]

/-- `main` initializes the shared slot with `builder.build()` before the
WebSocket server starts; with the fresh builder every raising path is
unreachable, so the fallback branch below is dead (proved in
`hubBuild_initialBuilder`). -/
def initialLatest (stale_after_ms t0 : Int) : Json :=
  match hubBuild stale_after_ms initialBuilder t0 with
  | some p => p.1
  | none => Json.null

/-- One `state_pump` tick: replace the slot with a freshly built snapshot.
A raising build kills the pump task, leaving slot and builder as they were
(unreachable in the no-frame runs this model is used for). -/
def pumpStep (stale_after_ms : Int) (p : VehicleStateBuilder × Json) (ts : Int) :
    VehicleStateBuilder × Json :=
  match hubBuild stale_after_ms p.1 ts with
  | some q => (q.2, q.1)
  | none => p

/-- Contents of the shared latest-snapshot slot after `main`'s initialization
at `t0` and a series of pump ticks, when no frame has ever been accepted. -/
def noFrameSlot (stale_after_ms t0 : Int) (ticks : List Int) : Json :=
  (ticks.foldl (pumpStep stale_after_ms) (initialBuilder, initialLatest stale_after_ms t0)).2

/-- The message sequence a subscriber's `ws_handler` loop produces: the hello
handshake first, then one read of the shared slot per broadcast interval. -/
def wsMessages (slotAt : Nat → Json) (t_conn : Int) : Nat → Json
  | 0 => helloMsg t_conn
  | n + 1 => slotAt n

/-! ## Supporting lemmas -/

/-- Looking up the key just set returns the new value. -/
theorem dictGet_dictSet_self {α : Type} (l : List (String × α)) (k : String) (v : α) :
    dictGet (dictSet l k v) k = some v := by
  induction l with
  | nil => simp [dictGet, dictSet]
  | cons p l ih =>
    obtain ⟨k1, v1⟩ := p
    by_cases h : k = k1 <;> simp [dictGet, dictSet, h, ih]

/-- Setting one key leaves lookups of other keys unchanged. -/
theorem dictGet_dictSet_ne {α : Type} (l : List (String × α)) (k k2 : String) (v : α)
    (h : k2 ≠ k) : dictGet (dictSet l k v) k2 = dictGet l k2 := by
  induction l with
  | nil => simp [dictGet, dictSet, h]
  | cons p l ih =>
    obtain ⟨k1, v1⟩ := p
    by_cases h1 : k = k1
    · subst h1
      simp [dictGet, dictSet, h]
    · by_cases h2 : k2 = k1 <;> simp [dictGet, dictSet, h1, h2, ih]

/-- Inversion of a successful `hubBuild`: all four fallible reads succeeded
and the result is the `hubSnapshot` literal. -/
theorem hubBuild_some_inv {sa : Int} {b : VehicleStateBuilder} {ts : Int}
    {pr : Json × VehicleStateBuilder} (h : hubBuild sa b ts = some pr) :
    ∃ fl inputs analog uptime heartbeat,
      (hubFrame b).asObj = some fl ∧
      jsonOrEmptyObj (dictGet fl "inputs") = some inputs ∧
      jsonOrEmptyObj (dictGet fl "analog") = some analog ∧
      pyOr0ToInt ((dictGet fl "uptime_ms").getD (Json.int 0)) = some uptime ∧
      pyOr0ToInt ((dictGet fl "heartbeat").getD (Json.int 0)) = some heartbeat ∧
      pr = hubSnapshot sa b ts inputs analog uptime heartbeat := by
  unfold hubBuild at h
  cases hfl : (hubFrame b).asObj with
  | none => rw [hfl] at h; exact absurd h (by simp)
  | some fl =>
    rw [hfl] at h
    dsimp only at h
    cases hi : jsonOrEmptyObj (dictGet fl "inputs") with
    | none => rw [hi] at h; simp at h
    | some inputs =>
      cases ha : jsonOrEmptyObj (dictGet fl "analog") with
      | none => rw [hi, ha] at h; simp at h
      | some analog =>
        cases hu : pyOr0ToInt ((dictGet fl "uptime_ms").getD (Json.int 0)) with
        | none => rw [hi, ha, hu] at h; simp at h
        | some uptime =>
          cases hh2 : pyOr0ToInt ((dictGet fl "heartbeat").getD (Json.int 0)) with
          | none => rw [hi, ha, hu, hh2] at h; simp at h
          | some heartbeat =>
            rw [hi, ha, hu, hh2] at h
            dsimp only at h
            exact ⟨fl, inputs, analog, uptime, heartbeat, rfl, hi, ha, hu, hh2,
              (Option.some.inj h).symm⟩

/-! ## C6 — hold masking -/

/-- **C6** (amended): with `hold_on_ms > 0` the OFF-masking of `HoldLatch` is
governed by `hold_until_ms`, which is set to the time of the last
ON-stabilization plus `hold_on_ms`: while `now_ms` is before that deadline an
OFF sample is always reported ON (whether or not it already stabilized), and
conversely the latch reports OFF only once `hold_until_ms` has passed.  An
OFF excursion is therefore masked when it falls within `hold_on_ms` of the
ON-stabilization, not merely when the excursion itself is shorter than
`hold_on_ms`. -/
theorem holdLatch_mask_window (s : HoldLatch) (now_ms : Int)
    (hpos : 0 < s.hold_on_ms) :
    (now_ms < s.hold_until_ms → (s.update false now_ms).1 = true) ∧
    ((s.update false now_ms).1 = false → s.hold_until_ms ≤ now_ms) := by
  unfold HoldLatch.update
  constructor
  · intro hlt
    dsimp only
    split_ifs <;> simp_all
  · intro hout
    by_contra hgt
    push_neg at hgt
    dsimp only at hout
    split_ifs at hout <;> simp_all

/-- **C6** (counterexample): the claim fails as stated.  Latch with
`min_stable_ms = 30`, `hold_on_ms = H = 80`: ON stabilizes at `t = 30`
(so the hold deadline is `110`), the raw signal stays ON until `t = 1000`,
then drops OFF and reverts to ON at `t = 1050` — an excursion of 50 ms < H.
The call at `t = 1040`, inside the excursion, returns OFF (fourth output
`false`), because the hold window expired at `t = 110`. -/
theorem holdLatch_brief_dropout_reports_off :
    (HoldLatch.runOutputs { min_stable_ms := 30, hold_on_ms := 80 }
        [(true, 0), (true, 30), (false, 1000), (false, 1040), (true, 1050)] =
      [false, true, true, false, false]) ∧
    ((((({ min_stable_ms := 30, hold_on_ms := 80 } : HoldLatch).update true 0).2.update
        true 30).2).stable = true) ∧
    ((1050 : Int) - 1000 < 80) := by
  refine ⟨rfl, rfl, by norm_num⟩

/-- Witness for `holdLatch_mask_window` at a concrete latch: stable ON with
the hold deadline at 110, an OFF sample at `now_ms = 100 < 110` is reported
ON. -/
theorem holdLatch_mask_window_witness :
    ((0 : Int) < 80) ∧ ((100 : Int) < 110) ∧
    (({ min_stable_ms := 30, hold_on_ms := 80, raw_last := true,
        raw_last_change_ms := 0, stable := true, stable_since_ms := 30,
        hold_until_ms := 110 } : HoldLatch).update false 100).1 = true := by
  refine ⟨by norm_num, by norm_num, ?_⟩
  exact (holdLatch_mask_window _ 100 (by norm_num)).1 (by norm_num)

/-! ## C7 — flash detection -/

/-- Spec-side flash detection: record every toggle of the input forever and,
at each call, report whether at least `m` recorded toggle timestamps lie in
the trailing window `[t - w, t]`.  This is the contract sentence of the
specification, with no pruning of old toggles. -/
def flashUnprunedRun (w : Int) (m : Nat) (last : Bool) (hist : List Int) :
    List (Bool × Int) → List Bool
  | [] => []
  | (v, t) :: rest =>
    let hist2 := if v != last then hist ++ [t] else hist
    decide (m ≤ (hist2.filter fun x => decide (t - w ≤ x)).length) ::
      flashUnprunedRun w m v hist2 rest

/-- Dropping an old cutoff `b` from a window filter: inside the window
`t - w ≤ a` the old cutoff is implied, outside it nothing passes anyway. -/
theorem filter_window_absorb (hist : List Int) (b t w : Int) (hbt : b ≤ t - w) :
    (hist.filter fun a => decide (t ≤ a + w) && decide (b ≤ a)) =
      hist.filter fun x => decide (t ≤ x + w) := by
  apply List.filter_congr
  intro x _
  by_cases hc : t ≤ x + w
  · have hb : b ≤ x := by omega
    simp [hc, hb]
  · simp [hc]

/-- One `FlashDetector.update` step on a state whose retained list is the
`b`-filtered toggle history equals the unpruned-history computation, provided
the new cutoff `t - w` dominates `b`. -/
theorem flashDetector_update_filtered (w : Int) (m : Nat) (last : Bool) (hist : List Int)
    (b t : Int) (v : Bool) (hbt : b ≤ t - w) :
    FlashDetector.update
      { window_ms := w, min_toggles := m, last := last,
        toggle_times_ms := hist.filter fun x => decide (b ≤ x) } v t =
      (decide (m ≤ (((if v != last then hist ++ [t] else hist).filter
          fun x => decide (t - w ≤ x))).length),
       { window_ms := w, min_toggles := m, last := v,
         toggle_times_ms := (if v != last then hist ++ [t] else hist).filter
           fun x => decide (t - w ≤ x) }) := by
  by_cases hv : v = last
  · subst hv
    simp [FlashDetector.update, List.filter_filter, filter_window_absorb hist b t w hbt]
  · have hv2 : (v != last) = true := by simp [hv]
    simp [FlashDetector.update, hv2, List.filter_append, List.filter_filter,
      filter_window_absorb hist b t w hbt]

/-- Generalized invariant: a detector whose retained list is the
cutoff-filtered toggle history behaves, on a chronological trace whose
window cutoffs dominate the old cutoff, exactly like the unpruned spec. -/
theorem flashRun_eq_unpruned (w : Int) (m : Nat) :
    ∀ (trace : List (Bool × Int)) (last : Bool) (hist : List Int) (b : Int),
      trace.Pairwise (fun p q => p.2 ≤ q.2) →
      (∀ p ∈ trace, b ≤ p.2 - w) →
      FlashDetector.runOutputs
        { window_ms := w, min_toggles := m, last := last,
          toggle_times_ms := hist.filter fun t => decide (b ≤ t) } trace =
        flashUnprunedRun w m last hist trace := by
  intro trace
  induction trace with
  | nil => intro last hist b _ _; rfl
  | cons p rest ih =>
    intro last hist b hchron hcut
    obtain ⟨v, t⟩ := p
    have hbt : b ≤ t - w := hcut (v, t) (List.mem_cons_self _ _)
    have hrest : ∀ q ∈ rest, t - w ≤ q.2 - w := by
      intro q hq
      have := (List.pairwise_cons.mp hchron).1 q hq
      omega
    have hchron2 := (List.pairwise_cons.mp hchron).2
    show (FlashDetector.update _ v t).1 ::
        FlashDetector.runOutputs (FlashDetector.update _ v t).2 rest = _
    rw [flashDetector_update_filtered w m last hist b t v hbt]
    simp only [flashUnprunedRun]
    exact congrArg₂ _ rfl (ih v (if v != last then hist ++ [t] else hist) (t - w)
      hchron2 hrest)

/-- **C7** (confirmed): on any chronological call sequence, the outputs of
`FlashDetector.update` coincide with the spec-side unpruned computation: the
detector reports flashing exactly when at least `min_toggles` recorded input
toggles carry timestamps within the trailing window `now - window_ms ≤ t`.
The claim's example trace is checked in the witness. -/
theorem flashDetector_window_count (w : Int) (m : Nat) (trace : List (Bool × Int))
    (hchron : trace.Pairwise fun p q => p.2 ≤ q.2) :
    FlashDetector.runOutputs { window_ms := w, min_toggles := m } trace =
      flashUnprunedRun w m false [] trace := by
  cases trace with
  | nil => rfl
  | cons p rest =>
    refine flashRun_eq_unpruned w m (p :: rest) false [] (p.2 - w) hchron ?_
    intro q hq
    rcases List.mem_cons.mp hq with h1 | h1
    · rw [h1]
    · have := (List.pairwise_cons.mp hchron).1 q h1
      omega

/-- The toggle trace of the claim's example: toggles recorded at
t = 0, 100, 220, 500 ms, then quiet calls at 1300 and 1701 ms. -/
def flashExampleTrace : List (Bool × Int) :=
  [(true, 0), (false, 100), (true, 220), (false, 500), (false, 1300), (false, 1701)]

/-- Witness for `flashDetector_window_count`: with window 1200 ms and
`min_toggles = 2` the example reports flashing from the second toggle onward
and `false` again at t = 1701 once every toggle has left the window. -/
theorem flashDetector_window_count_witness :
    (flashExampleTrace.Pairwise fun p q => p.2 ≤ q.2) ∧
    FlashDetector.runOutputs { window_ms := 1200, min_toggles := 2 } flashExampleTrace =
      flashUnprunedRun 1200 2 false [] flashExampleTrace ∧
    FlashDetector.runOutputs { window_ms := 1200, min_toggles := 2 } flashExampleTrace =
      [false, true, true, true, true, false] :=
  ⟨by decide, flashDetector_window_count 1200 2 flashExampleTrace (by decide), by decide⟩

/-! ## C10 — the seq guard of `update_from_uno` -/

/-- **C10** (confirmed): an accepted `vehicle_inputs` frame whose `seq` is
missing or fails Python's `isinstance(seq, int)` test (which accepts ints
and bools) leaves the stored sequence number unchanged while `last_rx_ms`
and `last_frame` are still refreshed from that frame. -/
theorem update_from_uno_seq_guard (b : VehicleStateBuilder)
    (fields : List (String × Json)) (t : Int)
    (hseq : isPyIntJ (dictGet fields "seq") = false) :
    (b.update_from_uno fields t).seq = b.seq ∧
    (b.update_from_uno fields t).last_rx_ms = some t ∧
    (b.update_from_uno fields t).last_frame = Json.obj fields := by
  unfold VehicleStateBuilder.update_from_uno
  refine ⟨?_, rfl, rfl⟩
  cases h : dictGet fields "seq" with
  | none => simp [h]
  | some j => cases j <;> simp_all [isPyIntJ]

/-- Witness for `update_from_uno_seq_guard`: a frame carrying the float
`3.5` as `seq` fails the isinstance test; the builder keeps its seq and
still refreshes `last_rx_ms` and `last_frame`. -/
theorem update_from_uno_seq_guard_witness :
    isPyIntJ (dictGet [("type", Json.str "vehicle_inputs"), ("seq", Json.num (7/2))]
      "seq") = false ∧
    (initialBuilder.update_from_uno
        [("type", Json.str "vehicle_inputs"), ("seq", Json.num (7/2))] 42).seq =
      initialBuilder.seq ∧
    (initialBuilder.update_from_uno
        [("type", Json.str "vehicle_inputs"), ("seq", Json.num (7/2))] 42).last_rx_ms =
      some 42 ∧
    (initialBuilder.update_from_uno
        [("type", Json.str "vehicle_inputs"), ("seq", Json.num (7/2))] 42).last_frame =
      Json.obj [("type", Json.str "vehicle_inputs"), ("seq", Json.num (7/2))] := by
  refine ⟨rfl, ?_⟩
  have h := update_from_uno_seq_guard initialBuilder
    [("type", Json.str "vehicle_inputs"), ("seq", Json.num (7/2))] 42 rfl
  exact h

/-! ## C5 — staleness -/

/-- The `_health` fields of the snapshot literal: `stale` is
`last_rx_ms is None or (ts - last_rx_ms) > stale_after_ms`, and `last_rx_ms`
is passed through verbatim (null before any accepted frame). -/
theorem hubSnapshot_health (sa : Int) (b : VehicleStateBuilder) (ts : Int)
    (inputs analog : List (String × Json)) (u hb : Int) :
    jGet2 (hubSnapshot sa b ts inputs analog u hb).1 "_health" "stale" =
      some (Json.bool (match b.last_rx_ms with
        | none => true
        | some r => decide (sa < ts - r))) ∧
    jGet2 (hubSnapshot sa b ts inputs analog u hb).1 "_health" "last_rx_ms" =
      some (match b.last_rx_ms with
        | none => Json.null
        | some r => Json.int r) :=
  ⟨rfl, rfl⟩

/-- **C5** (confirmed): a published snapshot reports `stale = true` with
`last_rx_ms = null` when no frame was ever accepted; once a frame was
accepted at time `r` it reports `last_rx_ms = r` and `stale` exactly when
the elapsed time `ts - r` exceeds the configured threshold; in particular a
build at the very moment of acceptance reports `stale = false`. -/
theorem hub_staleness (sa ts : Int) (b : VehicleStateBuilder) (snap : Json)
    (b2 : VehicleStateBuilder) (hsa : 0 ≤ sa)
    (h : hubBuild sa b ts = some (snap, b2)) :
    (b.last_rx_ms = none → jGet2 snap "_health" "stale" = some (Json.bool true) ∧
      jGet2 snap "_health" "last_rx_ms" = some Json.null) ∧
    (∀ r : Int, b.last_rx_ms = some r →
      jGet2 snap "_health" "stale" = some (Json.bool (decide (sa < ts - r))) ∧
      jGet2 snap "_health" "last_rx_ms" = some (Json.int r)) ∧
    (b.last_rx_ms = some ts → jGet2 snap "_health" "stale" = some (Json.bool false)) := by
  obtain ⟨fl, inputs, analog, u, hbt, _, _, _, _, _, hpr⟩ := hubBuild_some_inv h
  have hsnap : snap = (hubSnapshot sa b ts inputs analog u hbt).1 := congrArg Prod.fst hpr
  subst hsnap
  obtain ⟨hst, hrx⟩ := hubSnapshot_health sa b ts inputs analog u hbt
  refine ⟨fun hn => ⟨?_, ?_⟩, fun r hr => ⟨?_, ?_⟩, fun hts => ?_⟩
  · rw [hst, hn]
  · rw [hrx, hn]
  · rw [hst, hr]
  · rw [hrx, hr]
  · rw [hst, hts]
    simpa using hsa

/-- The snapshot `main` stores in the shared slot before serving, built from
the fresh builder at time 5. -/
def snapInit : Json := (hubBuild 750 initialBuilder 5).elim Json.null Prod.fst

/-- Witness for `hub_staleness`: the fresh builder's snapshot has
`stale = true` and `last_rx_ms = null`. -/
theorem hub_staleness_witness :
    ((0 : Int) ≤ 750) ∧
    hubBuild 750 initialBuilder 5 = some (snapInit, initialBuilder) ∧
    jGet2 snapInit "_health" "stale" = some (Json.bool true) ∧
    jGet2 snapInit "_health" "last_rx_ms" = some Json.null := by
  have h : hubBuild 750 initialBuilder 5 = some (snapInit, initialBuilder) := rfl
  have hs := hub_staleness 750 5 initialBuilder snapInit initialBuilder (by norm_num) h
  exact ⟨by norm_num, h, (hs.1 rfl).1, (hs.1 rfl).2⟩

/-! ## C8 — who mutates filter state -/

/-- **C8** (amended): in `vehicle_hub` the EMA smoothing state is mutated by
`build` itself — the path the recomputation pump calls — not only by frame
ingestion.  For a channel with a parsable sample in the last frame and an
existing accumulator `v`, the `a(...)` helper emits the blended value
`hubEmaStep raw v` and writes it back, so the next recomputation reads the
new accumulator; consecutive recomputations with no intervening frame
therefore read identical smoothed values only when the accumulator already
equals the raw sample. -/
theorem hub_build_advances_ema (st : List (String × Option ℚ))
    (analog : List (String × Json)) (name : String) (j : Json) (r : Int) (v : ℚ)
    (hj : dictGet analog name = some j) (hr : pyToInt j = some r)
    (hv : dictGet st name = some (some v)) :
    hubAnalogEntry st analog name =
      (Json.obj [("raw", Json.int r),
                 ("smooth", Json.num (pyRound (hubEmaStep r v) 2)),
                 ("norm", Json.num (pyRound ((r : ℚ) / 1023) 4))],
       dictSet st name (some (hubEmaStep r v))) ∧
    dictGet (dictSet st name (some (hubEmaStep r v))) name =
      some (some (hubEmaStep r v)) ∧
    (hubEmaStep r v = v ↔ v = (r : ℚ)) := by
  refine ⟨?_, dictGet_dictSet_self st name _, ?_⟩
  · unfold hubAnalogEntry
    rw [hj]
    cases j with
    | null => simp [pyToInt] at hr
    | bool bb => cases bb <;> simp_all [pyToInt, hv, hubEmaStep, Json.isNull]
    | _ => simp_all [pyToInt, hv, hubEmaStep, Json.isNull]
  · unfold hubEmaStep
    constructor
    · intro hfix
      linarith
    · intro hveq
      rw [hveq]
      ring

/-- The `analog.fuel_sender_raw.smooth` field of a build result. -/
def fuelSmoothOf (o : Option (Json × VehicleStateBuilder)) : Option ℚ :=
  match o with
  | some p =>
    match jGet2 p.1 "analog" "fuel_sender_raw" with
    | some e =>
      match jGet e "smooth" with
      | some (Json.num q) => some q
      | _ => none
    | none => none
  | none => none

/-- The builder carried out of a build result. -/
def builderAfter (o : Option (Json × VehicleStateBuilder)) : VehicleStateBuilder :=
  match o with
  | some p => p.2
  | none => initialBuilder

/-- A frame with `A0 = 0`, a pump tick, then a frame with `A0 = 1023` and no
further frames. -/
def eventsC8 : List HubEvent :=
  [HubEvent.frame [("type", Json.str "vehicle_inputs"),
     ("analog", Json.obj [("A0", Json.int 0)])] 0,
   HubEvent.tick 0,
   HubEvent.frame [("type", Json.str "vehicle_inputs"),
     ("analog", Json.obj [("A0", Json.int 1023)])] 10]

/-- **C8** (counterexample): the claim fails as stated — recomputing a
snapshot does not leave filter state unchanged.  After `eventsC8`, two
consecutive pump builds at t = 20 and t = 30 with no intervening frame read
the smoothed values 153.45 and 283.88 for `fuel_sender_raw`: each build
re-applies the EMA to the last frame's raw value and stores the result. -/
theorem consecutive_builds_read_different_smooth :
    fuelSmoothOf (hubBuild 750 (applyEvents 750 initialBuilder eventsC8) 20) =
      some (3069/20) ∧
    fuelSmoothOf (hubBuild 750
      (builderAfter (hubBuild 750 (applyEvents 750 initialBuilder eventsC8) 20)) 30) =
      some (7097/25) ∧
    ((3069/20 : ℚ) ≠ 7097/25) := by
  refine ⟨by decide, by decide, by norm_num⟩

/-- Witness for `hub_build_advances_ema` at the state reached by `eventsC8`
plus one build: accumulator 153.45, raw 1023, blended value 283.8825. -/
theorem hub_build_advances_ema_witness :
    dictGet [("A0", Json.int 1023)] "A0" = some (Json.int 1023) ∧
    pyToInt (Json.int 1023) = some 1023 ∧
    dictGet [("A0", some (3069/20 : ℚ))] "A0" = some (some (3069/20 : ℚ)) ∧
    hubAnalogEntry [("A0", some (3069/20 : ℚ))] [("A0", Json.int 1023)] "A0" =
      (Json.obj [("raw", Json.int 1023),
                 ("smooth", Json.num (pyRound (hubEmaStep 1023 (3069/20)) 2)),
                 ("norm", Json.num (pyRound ((1023 : ℚ) / 1023) 4))],
       dictSet [("A0", some (3069/20 : ℚ))] "A0" (some (hubEmaStep 1023 (3069/20)))) ∧
    (hubEmaStep 1023 (3069/20) = 3069/20 ↔ (3069/20 : ℚ) = 1023) := by
  have h := hub_build_advances_ema [("A0", some (3069/20 : ℚ))] [("A0", Json.int 1023)]
    "A0" (Json.int 1023) 1023 (3069/20) rfl rfl rfl
  exact ⟨rfl, rfl, rfl, h.1, h.2.2⟩

/-! ## C1 — schema completeness of published snapshots -/

/-- Every `a(...)` entry is a well-typed analog triple: either all-null or
int raw with numeric smooth and norm — the keys are present either way. -/
theorem analogEntryOk_hubAnalogEntry (st : List (String × Option ℚ))
    (analog : List (String × Json)) (name : String) :
    analogEntryOk (some (hubAnalogEntry st analog name).1) = true := by
  unfold hubAnalogEntry
  dsimp only
  split
  · rfl
  · split
    · rfl
    · rfl

/-- The snapshot literal of `build` passes the full schema check as soon as
the stored `seq` is a Python int (int or bool). -/
theorem completeSchema_hubSnapshot (sa : Int) (b : VehicleStateBuilder) (ts : Int)
    (inputs analog : List (String × Json)) (u hb : Int)
    (hseq : isPyIntJ (some b.seq) = true) :
    completeSchema (hubSnapshot sa b ts inputs analog u hb).1 = true := by
  cases hq : b.seq with
  | int n =>
    cases hrx : b.last_rx_ms <;>
      simp [completeSchema, hubSnapshot, dictGet, isIntJ, isStrJ, isBoolJ, isPyIntJ,
        isNullOrIntJ, hq, hrx, analogEntryOk_hubAnalogEntry]
  | bool v =>
    cases hrx : b.last_rx_ms <;>
      simp [completeSchema, hubSnapshot, dictGet, isIntJ, isStrJ, isBoolJ, isPyIntJ,
        isNullOrIntJ, hq, hrx, analogEntryOk_hubAnalogEntry]
  | null => rw [hq] at hseq; simp [isPyIntJ] at hseq
  | num q => rw [hq] at hseq; simp [isPyIntJ] at hseq
  | str s2 => rw [hq] at hseq; simp [isPyIntJ] at hseq
  | arr l => rw [hq] at hseq; simp [isPyIntJ] at hseq
  | obj l => rw [hq] at hseq; simp [isPyIntJ] at hseq

/-- A successful build returns the builder unchanged except for the
smoothing state; in particular the stored `seq` survives every pump tick. -/
theorem hubBuild_preserves_seq {sa : Int} {b : VehicleStateBuilder} {ts : Int}
    {pr : Json × VehicleStateBuilder} (h : hubBuild sa b ts = some pr) :
    pr.2.seq = b.seq := by
  obtain ⟨fl, inputs, analog, u, hbt, _, _, _, _, _, hpr⟩ := hubBuild_some_inv h
  rw [hpr]
  rfl

/-- One event keeps the stored `seq` a Python int: a frame either stores the
int/bool it carries or keeps the old value, and a pump tick never touches
`seq`. -/
theorem applyEvent_seq_pyInt (sa : Int) (b : VehicleStateBuilder) (e : HubEvent)
    (hb : isPyIntJ (some b.seq) = true) :
    isPyIntJ (some (applyEvent sa b e).seq) = true := by
  cases e with
  | frame fields t =>
    simp only [applyEvent]
    by_cases hf : isVehicleInputs fields = true
    · rw [if_pos hf]
      unfold VehicleStateBuilder.update_from_uno
      dsimp only
      cases h : dictGet fields "seq" with
      | none => dsimp only; exact hb
      | some j => cases j <;> simp_all [isPyIntJ]
    · rw [if_neg hf]
      exact hb
  | tick ts =>
    simp only [applyEvent]
    cases h : hubBuild sa b ts with
    | none => exact hb
    | some p =>
      dsimp only
      rw [hubBuild_preserves_seq h]
      exact hb

/-- The stored `seq` is a Python int in every state reachable from startup
by inbound frames and pump ticks. -/
theorem applyEvents_seq_pyInt (sa : Int) (events : List HubEvent) :
    isPyIntJ (some (applyEvents sa initialBuilder events).seq) = true := by
  suffices h : ∀ (b : VehicleStateBuilder), isPyIntJ (some b.seq) = true →
      ∀ evs : List HubEvent, isPyIntJ (some (applyEvents sa b evs).seq) = true from
    h initialBuilder rfl events
  intro b hb evs
  induction evs generalizing b with
  | nil => exact hb
  | cons e rest ih => exact ih (applyEvent sa b e) (applyEvent_seq_pyInt sa b e hb)

/-- **C1** (confirmed): for any sequence of inbound frames and pump ticks
(including none at all), every snapshot a pump build publishes carries the
full fixed key set with the contract's types: `type`, `ts_ms`, `source`,
`seq`, `uptime_ms`, `heartbeat`, the five indicator booleans, the four
warning booleans, `spare_1`, one never-omitted entry per analog channel
(null triple or typed triple), and `_health` with both `stale` and
`last_rx_ms`.  (`seq` is typed as a Python int, which includes bools since
`isinstance(True, int)` holds and `update_from_uno` stores whatever passes
that test.) -/
theorem published_snapshot_complete (sa : Int) (events : List HubEvent) (ts : Int)
    (snap : Json) (b2 : VehicleStateBuilder)
    (h : hubBuild sa (applyEvents sa initialBuilder events) ts = some (snap, b2)) :
    completeSchema snap = true := by
  obtain ⟨fl, inputs, analog, u, hbt, _, _, _, _, _, hpr⟩ := hubBuild_some_inv h
  have hsnap : snap =
      (hubSnapshot sa (applyEvents sa initialBuilder events) ts inputs analog u hbt).1 :=
    congrArg Prod.fst hpr
  rw [hsnap]
  exact completeSchema_hubSnapshot sa _ ts inputs analog u hbt
    (applyEvents_seq_pyInt sa events)

/-- Witness for `published_snapshot_complete`: with no events at all, the
very first build (the one `main` stores before serving) is schema-complete. -/
theorem published_snapshot_complete_witness :
    hubBuild 750 (applyEvents 750 initialBuilder []) 0 =
      some ((hubBuild 750 initialBuilder 0).elim Json.null Prod.fst, initialBuilder) ∧
    completeSchema ((hubBuild 750 initialBuilder 0).elim Json.null Prod.fst) = true := by
  have h : hubBuild 750 (applyEvents 750 initialBuilder []) 0 =
      some ((hubBuild 750 initialBuilder 0).elim Json.null Prod.fst, initialBuilder) := rfl
  exact ⟨h, published_snapshot_complete 750 [] 0 _ _ h⟩

/-! ## C9 — the slot is complete before the server starts -/

/-- The fresh builder's build never raises: it is exactly the snapshot on
empty inputs and analog dicts, and it hands the builder back unchanged. -/
theorem hubBuild_initialBuilder (sa ts : Int) :
    hubBuild sa initialBuilder ts =
      some (hubSnapshot sa initialBuilder ts [] [] 0 0) := rfl

/-- The fresh builder's snapshot is schema-complete, stale, and carries a
null `last_rx_ms`. -/
theorem initSnapshot_good (sa ts : Int) :
    completeSchema (hubSnapshot sa initialBuilder ts [] [] 0 0).1 = true ∧
    jGet2 (hubSnapshot sa initialBuilder ts [] [] 0 0).1 "_health" "stale" =
      some (Json.bool true) ∧
    jGet2 (hubSnapshot sa initialBuilder ts [] [] 0 0).1 "_health" "last_rx_ms" =
      some Json.null := by
  refine ⟨completeSchema_hubSnapshot sa initialBuilder ts [] [] 0 0 rfl, ?_, ?_⟩
  · exact (hubSnapshot_health sa initialBuilder ts [] [] 0 0).1
  · exact (hubSnapshot_health sa initialBuilder ts [] [] 0 0).2

/-- The slot value `main` installs before serving is good. -/
theorem initialLatest_good (sa t0 : Int) :
    completeSchema (initialLatest sa t0) = true ∧
    jGet2 (initialLatest sa t0) "_health" "stale" = some (Json.bool true) ∧
    jGet2 (initialLatest sa t0) "_health" "last_rx_ms" = some Json.null := by
  unfold initialLatest
  rw [hubBuild_initialBuilder]
  exact initSnapshot_good sa t0

/-- As long as no frame arrives, every pump tick leaves the builder at its
initial state and replaces the slot with another good snapshot. -/
theorem pump_fold_invariant (sa : Int) :
    ∀ (ticks : List Int) (slot : Json),
      completeSchema slot = true →
      jGet2 slot "_health" "stale" = some (Json.bool true) →
      jGet2 slot "_health" "last_rx_ms" = some Json.null →
      (ticks.foldl (pumpStep sa) (initialBuilder, slot)).1 = initialBuilder ∧
      completeSchema (ticks.foldl (pumpStep sa) (initialBuilder, slot)).2 = true ∧
      jGet2 (ticks.foldl (pumpStep sa) (initialBuilder, slot)).2 "_health" "stale" =
        some (Json.bool true) ∧
      jGet2 (ticks.foldl (pumpStep sa) (initialBuilder, slot)).2 "_health" "last_rx_ms" =
        some Json.null := by
  intro ticks
  induction ticks with
  | nil => intro slot h1 h2 h3; exact ⟨rfl, h1, h2, h3⟩
  | cons t rest ih =>
    intro slot h1 h2 h3
    have hstep : pumpStep sa (initialBuilder, slot) t =
        (initialBuilder, (hubSnapshot sa initialBuilder t [] [] 0 0).1) := rfl
    rw [List.foldl_cons, hstep]
    exact ih _ (initSnapshot_good sa t).1 (initSnapshot_good sa t).2.1
      (initSnapshot_good sa t).2.2

/-- **C9** (confirmed): the shared slot is initialized with a full
`builder.build()` before the WebSocket server accepts subscribers, the
handler sends the hello handshake as its first message and afterwards only
ever reads the slot; with no frame ever accepted, the slot's content — after
any number of pump ticks — is a schema-complete snapshot with `stale = true`
and `last_rx_ms = null`, so an early subscriber never sees a missing or
partial snapshot. -/
theorem subscriber_before_first_frame (sa t0 t_conn : Int) (ticks : List Int)
    (slotAt : Nat → Json) (n : Nat) :
    wsMessages slotAt t_conn 0 = helloMsg t_conn ∧
    wsMessages slotAt t_conn (n + 1) = slotAt n ∧
    completeSchema (noFrameSlot sa t0 ticks) = true ∧
    jGet2 (noFrameSlot sa t0 ticks) "_health" "stale" = some (Json.bool true) ∧
    jGet2 (noFrameSlot sa t0 ticks) "_health" "last_rx_ms" = some Json.null := by
  have hinv := pump_fold_invariant sa ticks (initialLatest sa t0)
    (initialLatest_good sa t0).1 (initialLatest_good sa t0).2.1
    (initialLatest_good sa t0).2.2
  exact ⟨rfl, rfl, hinv.2.1, hinv.2.2.1, hinv.2.2.2⟩

/-! ## C2 — what feeds the flashing fields -/

/-- The digital loop on the single mapped pin `D2 → left_indicator`: the raw
bit goes through the channel's `HoldLatch`, and the latch's stable output —
not the raw bit — feeds the channel's `FlashDetector`. -/
theorem transformDigitalGo_left_indicator (raw_inputs : List (String × Json))
    (now : Int) (dig : List (String × HoldLatch)) (fl : List (String × FlashDetector))
    (latch : HoldLatch) (det : FlashDetector)
    (hlat : dictGet dig "left_indicator" = some latch)
    (hdet : dictGet fl "left_indicator" = some det) :
    transformDigitalGo raw_inputs now [] [] dig fl [("D2", "left_indicator")] =
      some ([("left_indicator",
                (latch.update (pyTruthy ((dictGet raw_inputs "D2").getD
                  (Json.bool false))) now).1)],
            [("left_indicator",
                (det.update (latch.update (pyTruthy ((dictGet raw_inputs "D2").getD
                  (Json.bool false))) now).1 now).1)],
            dictSet dig "left_indicator"
              (latch.update (pyTruthy ((dictGet raw_inputs "D2").getD
                (Json.bool false))) now).2,
            dictSet fl "left_indicator"
              (det.update (latch.update (pyTruthy ((dictGet raw_inputs "D2").getD
                (Json.bool false))) now).1 now).2) := by
  unfold transformDigitalGo
  rw [hlat]
  dsimp only
  rw [hdet]
  rfl

/-- **C2** (amended): the two implementations disagree.  In the publishing
path (`vehicle_hub.build`) `left_flashing`/`right_flashing` are the same
value as `left`/`right` — the raw per-frame samples of D2/D3, with no
debounce and no flash detection.  Only the (unused) transformer path feeds
the hold-latch-stabilized value into the channel's `FlashDetector` and
publishes that detector's output as `left_flashing`. -/
theorem flashing_fields_amended
    (sa : Int) (b : VehicleStateBuilder) (ts : Int) (snap : Json)
    (b2 : VehicleStateBuilder)
    (h : hubBuild sa b ts = some (snap, b2))
    (T : VehicleStateTransformer) (frame : List (String × Json)) (now : Int)
    (snapT : Json) (T2 : VehicleStateTransformer)
    (latch : HoldLatch) (det : FlashDetector) (raw_inputs : List (String × Json))
    (hpm : T.pinmap.digital = [("D2", "left_indicator")])
    (hlat : dictGet T.dig_stab "left_indicator" = some latch)
    (hdet : dictGet T.flash "left_indicator" = some det)
    (hin : jsonOrEmptyObj (dictGet frame "inputs") = some raw_inputs)
    (hT : T.transform frame now = some (snapT, T2)) :
    (jGet2 snap "indicators" "left_flashing" = jGet2 snap "indicators" "left" ∧
     jGet2 snap "indicators" "right_flashing" = jGet2 snap "indicators" "right") ∧
    jGet2 snapT "indicators" "left_flashing" =
      some (Json.bool (det.update (latch.update
        (pyTruthy ((dictGet raw_inputs "D2").getD (Json.bool false))) now).1 now).1) := by
  constructor
  · obtain ⟨fl, inputs, analog, u, hbt, _, _, _, _, _, hpr⟩ := hubBuild_some_inv h
    have hsnap : snap = (hubSnapshot sa b ts inputs analog u hbt).1 :=
      congrArg Prod.fst hpr
    subst hsnap
    exact ⟨rfl, rfl⟩
  · unfold VehicleStateTransformer.transform at hT
    rw [hin] at hT
    cases hra : jsonOrEmptyObj (dictGet frame "analog") with
    | none => rw [hra] at hT; simp at hT
    | some rawA =>
      rw [hra] at hT
      dsimp only at hT
      rw [hpm, transformDigitalGo_left_indicator raw_inputs now T.dig_stab T.flash
        latch det hlat hdet] at hT
      dsimp only at hT
      cases han : transformAnalogGo rawA [] T.analog_clamp T.analog_ema T.pinmap.analog with
      | none => rw [han] at hT; simp at hT
      | some res =>
        obtain ⟨aout, cl2, em2⟩ := res
        rw [han] at hT
        dsimp only at hT
        cases hs : pyToInt ((dictGet frame "seq").getD (Json.int 0)) with
        | none => rw [hs] at hT; simp at hT
        | some seqv =>
          cases hu : pyToInt ((dictGet frame "uptime_ms").getD (Json.int 0)) with
          | none => rw [hs, hu] at hT; simp at hT
          | some uv =>
            cases hh : pyToInt ((dictGet frame "heartbeat").getD (Json.int 0)) with
            | none => rw [hs, hu, hh] at hT; simp at hT
            | some hv =>
              rw [hs, hu, hh] at hT
              dsimp only at hT
              have hsnapT := (Prod.mk.injEq _ _ _ _).mp (Option.some.inj hT)
              rw [← hsnapT.1]
              rfl

/-- A `vehicle_inputs` frame whose D2 bit is high for a single frame. -/
def framePulse : List (String × Json) :=
  [("type", Json.str "vehicle_inputs"), ("inputs", Json.obj [("D2", Json.bool true)])]

/-- The `indicators.left_flashing` field of a snapshot, as a Bool. -/
def leftFlashingOf (j : Json) : Option Bool :=
  match jGet2 j "indicators" "left_flashing" with
  | some (Json.bool v) => some v
  | _ => none

/-- **C2** (counterexample): the claim fails as stated.  After the single
frame `framePulse` at t = 0, the published snapshot (vehicle_hub path)
reports `left_flashing = true` — the raw per-frame D2 sample — while the
Flash Detector fed with the debounced value of the same channel on the same
history reports `false` (one sample cannot stabilize within
`min_stable_ms = 30`, and a detector with `min_toggles = 2` cannot fire on a
first call). -/
theorem published_flashing_is_raw_sample :
    (hubBuild 750 (applyEvents 750 initialBuilder [HubEvent.frame framePulse 0]) 0).map
      (fun p => leftFlashingOf p.1) = some (some true) ∧
    (VehicleStateTransformer.transform
        (mkTransformer { digital := [("D2", "left_indicator")], analog := [] })
        framePulse 0).map (fun p => leftFlashingOf p.1) = some (some false) ∧
    (some (some true) : Option (Option Bool)) ≠ some (some false) := by
  refine ⟨rfl, rfl, by simp⟩

/-- The builder after accepting `framePulse`, and both paths' snapshots. -/
def bPulse : VehicleStateBuilder :=
  applyEvents 750 initialBuilder [HubEvent.frame framePulse 0]

/-- Published snapshot for the pulse history. -/
def snapPulse : Json := (hubBuild 750 bPulse 0).elim Json.null Prod.fst

/-- Builder carried out of the pulse build. -/
def bPulse2 : VehicleStateBuilder := builderAfter (hubBuild 750 bPulse 0)

/-- Transformer over the single left-indicator pin map. -/
def TPulse : VehicleStateTransformer :=
  mkTransformer { digital := [("D2", "left_indicator")], analog := [] }

/-- Transformer snapshot for the pulse frame. -/
def snapTPulse : Json := (TPulse.transform framePulse 0).elim Json.null Prod.fst

/-- Transformer state after the pulse frame. -/
def TPulse2 : VehicleStateTransformer :=
  match TPulse.transform framePulse 0 with
  | some p => p.2
  | none => TPulse

/-- Witness for `flashing_fields_amended` on the pulse history. -/
theorem flashing_fields_amended_witness :
    hubBuild 750 bPulse 0 = some (snapPulse, bPulse2) ∧
    TPulse.transform framePulse 0 = some (snapTPulse, TPulse2) ∧
    jGet2 snapPulse "indicators" "left_flashing" = jGet2 snapPulse "indicators" "left" ∧
    jGet2 snapTPulse "indicators" "left_flashing" =
      some (Json.bool ((({ window_ms := 1200, min_toggles := 2 } : FlashDetector).update
        ((({ min_stable_ms := 30, hold_on_ms := 80 } : HoldLatch).update
          (pyTruthy ((dictGet [("D2", Json.bool true)] "D2").getD (Json.bool false)))
          0).1) 0).1)) := by
  have h1 : hubBuild 750 bPulse 0 = some (snapPulse, bPulse2) := rfl
  have h2 : TPulse.transform framePulse 0 = some (snapTPulse, TPulse2) := rfl
  have ham := flashing_fields_amended 750 bPulse 0 snapPulse bPulse2 h1 TPulse
    framePulse 0 snapTPulse TPulse2
    { min_stable_ms := 30, hold_on_ms := 80 }
    { window_ms := 1200, min_toggles := 2 }
    [("D2", Json.bool true)] rfl rfl rfl rfl h2
  exact ⟨h1, h2, ham.1.1, ham.2⟩

/-! ## C3 and C4 — the per-channel analog pipeline -/

/-- `isNull` holds exactly on the JSON null value. -/
theorem Json.isNull_iff (j : Json) : j.isNull = true ↔ j = Json.null := by
  cases j <;> simp [Json.isNull]

/-- A channel whose sample is missing, `null`, or unparsable contributes
nothing to the analog loop: no output entry, no filter-state change — the
remaining channels are processed exactly as if it did not exist. -/
theorem transformAnalogGo_cons_skip (raw_analog : List (String × Json))
    (out : List (String × Json)) (cl : List (String × OutlierClamp))
    (em : List (String × EMA)) (a_pin : String) (amap : AnalogMap)
    (rest : List (String × AnalogMap))
    (hskip : pyToFloat ((dictGet raw_analog a_pin).getD Json.null) = none) :
    transformAnalogGo raw_analog out cl em ((a_pin, amap) :: rest) =
      transformAnalogGo raw_analog out cl em rest := by
  conv_lhs => rw [transformAnalogGo]
  by_cases hn : ((dictGet raw_analog a_pin).getD Json.null).isNull = true
  · rw [if_pos hn]
  · rw [if_neg hn, hskip]

/-- A channel with a parsable sample runs clamp → EMA → normalize, stores
the rounded triple under its name, and updates only its own clamp and EMA
entries before the loop continues. -/
theorem transformAnalogGo_cons_process (raw_analog : List (String × Json))
    (out : List (String × Json)) (cl : List (String × OutlierClamp))
    (em : List (String × EMA)) (a_pin : String) (amap : AnalogMap)
    (rest : List (String × AnalogMap)) (r : ℚ)
    (clamp : OutlierClamp) (ema : EMA)
    (hr : pyToFloat ((dictGet raw_analog a_pin).getD Json.null) = some r)
    (hcl : dictGet cl amap.name = some clamp)
    (hem : dictGet em amap.name = some ema) :
    transformAnalogGo raw_analog out cl em ((a_pin, amap) :: rest) =
      transformAnalogGo raw_analog
        (dictSet out amap.name (Json.obj [("raw", Json.int (ratTrunc r)),
          ("smooth", Json.num (pyRound (ema.update (clamp.update r).1).1 2)),
          ("norm", Json.num (pyRound
            (normalize_analog (ema.update (clamp.update r).1).1 amap) 4))]))
        (dictSet cl amap.name (clamp.update r).2)
        (dictSet em amap.name (ema.update (clamp.update r).1).2) rest := by
  conv_lhs => rw [transformAnalogGo]
  have hn : ((dictGet raw_analog a_pin).getD Json.null).isNull = false := by
    by_contra hc
    rw [Bool.not_eq_false, Json.isNull_iff] at hc
    rw [hc] at hr
    exact absurd hr (by simp [pyToFloat])
  rw [Bool.eq_false_iff] at hn
  rw [if_neg hn, hr]
  dsimp only
  rw [hcl, hem]

/-- A parsable channel whose stabilizer maps lack its name makes the loop
raise (`KeyError`). -/
theorem transformAnalogGo_cons_keyerr (raw_analog : List (String × Json))
    (out : List (String × Json)) (cl : List (String × OutlierClamp))
    (em : List (String × EMA)) (a_pin : String) (amap : AnalogMap)
    (rest : List (String × AnalogMap)) (r : ℚ)
    (hr : pyToFloat ((dictGet raw_analog a_pin).getD Json.null) = some r)
    (hkey : dictGet cl amap.name = none ∨ dictGet em amap.name = none) :
    transformAnalogGo raw_analog out cl em ((a_pin, amap) :: rest) = none := by
  conv_lhs => rw [transformAnalogGo]
  have hn : ((dictGet raw_analog a_pin).getD Json.null).isNull = false := by
    by_contra hc
    rw [Bool.not_eq_false, Json.isNull_iff] at hc
    rw [hc] at hr
    exact absurd hr (by simp [pyToFloat])
  rw [Bool.eq_false_iff] at hn
  rw [if_neg hn, hr]
  dsimp only
  rcases hkey with hk | hk
  · rw [hk]
  · rw [hk]
    cases dictGet cl amap.name <;> rfl

/-- Entries already in the output dict survive the rest of the loop as long
as no remaining channel shares their name. -/
theorem transformAnalogGo_out_stable (raw_analog : List (String × Json)) :
    ∀ (l : List (String × AnalogMap)) (out : List (String × Json))
      (cl : List (String × OutlierClamp)) (em : List (String × EMA))
      (res : List (String × Json) × List (String × OutlierClamp) × List (String × EMA))
      (k : String),
      transformAnalogGo raw_analog out cl em l = some res →
      k ∉ l.map (fun p => p.2.name) →
      dictGet res.1 k = dictGet out k := by
  intro l
  induction l with
  | nil =>
    intro out cl em res k h _
    cases Option.some.inj h
    rfl
  | cons p rest ih =>
    intro out cl em res k h hk
    obtain ⟨a_pin, amap⟩ := p
    simp only [List.map_cons, List.mem_cons, not_or] at hk
    obtain ⟨hk1, hk2⟩ := hk
    by_cases hskip : pyToFloat ((dictGet raw_analog a_pin).getD Json.null) = none
    · rw [transformAnalogGo_cons_skip _ _ _ _ _ _ _ hskip] at h
      exact ih out cl em res k h hk2
    · obtain ⟨r, hr⟩ := Option.ne_none_iff_exists'.mp hskip
      cases hcl : dictGet cl amap.name with
      | none =>
        rw [transformAnalogGo_cons_keyerr _ _ _ _ _ _ _ _ hr (Or.inl hcl)] at h
        cases h
      | some clamp =>
        cases hem : dictGet em amap.name with
        | none =>
          rw [transformAnalogGo_cons_keyerr _ _ _ _ _ _ _ _ hr (Or.inr hem)] at h
          cases h
        | some ema =>
          rw [transformAnalogGo_cons_process _ _ _ _ _ _ _ _ _ _ hr hcl hem] at h
          rw [ih _ _ _ res k h hk2]
          exact dictGet_dictSet_ne _ _ _ _ hk1

/-- The analog loop's output entry for a mapped channel whose sample is
present and parsable: the triple computed from that channel's own clamp and
EMA state, regardless of what the other (distinctly named) channels do. -/
theorem transformAnalogGo_mem_entry (raw_analog : List (String × Json)) :
    ∀ (l : List (String × AnalogMap)) (out : List (String × Json))
      (cl : List (String × OutlierClamp)) (em : List (String × EMA))
      (res : List (String × Json) × List (String × OutlierClamp) × List (String × EMA))
      (a_pin : String) (amap : AnalogMap) (r : ℚ)
      (clamp : OutlierClamp) (ema : EMA),
      (a_pin, amap) ∈ l →
      (l.map fun p => p.2.name).Nodup →
      dictGet out amap.name = none →
      pyToFloat ((dictGet raw_analog a_pin).getD Json.null) = some r →
      dictGet cl amap.name = some clamp →
      dictGet em amap.name = some ema →
      transformAnalogGo raw_analog out cl em l = some res →
      dictGet res.1 amap.name =
        some (Json.obj [("raw", Json.int (ratTrunc r)),
          ("smooth", Json.num (pyRound (ema.update (clamp.update r).1).1 2)),
          ("norm", Json.num (pyRound
            (normalize_analog (ema.update (clamp.update r).1).1 amap) 4))]) := by
  intro l
  induction l with
  | nil =>
    intro out cl em res a_pin amap r clamp ema hmem
    exact absurd hmem (List.not_mem_nil _)
  | cons p rest ih =>
    intro out cl em res a_pin amap r clamp ema hmem hnodup hout hr hcl hem h
    obtain ⟨pin2, amap2⟩ := p
    rw [List.map_cons] at hnodup
    have hnames := List.nodup_cons.mp hnodup
    rcases List.mem_cons.mp hmem with heq | hmem2
    · injection heq with he1 he2
      subst he1
      subst he2
      rw [transformAnalogGo_cons_process _ _ _ _ _ _ _ _ _ _ hr hcl hem] at h
      rw [transformAnalogGo_out_stable raw_analog rest _ _ _ res amap.name h
        (by simpa using hnames.1)]
      exact dictGet_dictSet_self _ _ _
    · have hne : amap.name ≠ amap2.name := by
        intro hcontra
        apply hnames.1
        rw [← hcontra]
        exact List.mem_map.mpr ⟨(a_pin, amap), hmem2, rfl⟩
      by_cases hskip : pyToFloat ((dictGet raw_analog pin2).getD Json.null) = none
      · rw [transformAnalogGo_cons_skip _ _ _ _ _ _ _ hskip] at h
        exact ih out cl em res a_pin amap r clamp ema hmem2 hnames.2 hout hr hcl hem h
      · obtain ⟨r2, hr2⟩ := Option.ne_none_iff_exists'.mp hskip
        cases hcl2 : dictGet cl amap2.name with
        | none =>
          rw [transformAnalogGo_cons_keyerr _ _ _ _ _ _ _ _ hr2 (Or.inl hcl2)] at h
          cases h
        | some clamp2 =>
          cases hem2 : dictGet em amap2.name with
          | none =>
            rw [transformAnalogGo_cons_keyerr _ _ _ _ _ _ _ _ hr2 (Or.inr hem2)] at h
            cases h
          | some ema2 =>
            rw [transformAnalogGo_cons_process _ _ _ _ _ _ _ _ _ _ hr2 hcl2 hem2] at h
            refine ih _ _ _ res a_pin amap r clamp ema hmem2 hnames.2 ?_ hr ?_ ?_ h
            · rw [dictGet_dictSet_ne _ _ _ _ hne]
              exact hout
            · rw [dictGet_dictSet_ne _ _ _ _ hne]
              exact hcl
            · rw [dictGet_dictSet_ne _ _ _ _ hne]
              exact hem

/-- **C3** (confirmed): for a mapped analog channel whose sample is present
and parsable, the snapshot entry produced by `transform` carries
`raw = int(raw_f)`, `smooth = round(ema(clamp(raw_f)), 2)` and
`norm = round(normalize_analog(ema(clamp(raw_f)), amap), 4)` — the
normalization of the outlier-clamped, EMA-smoothed value under the
channel's min/max/invert configuration (clamped into [0,1] inside
`normalize_analog`). -/
theorem transform_analog_pipeline (T : VehicleStateTransformer)
    (frame : List (String × Json)) (now : Int) (snap : Json)
    (T2 : VehicleStateTransformer) (a_pin : String) (amap : AnalogMap) (r : ℚ)
    (clamp : OutlierClamp) (ema : EMA) (raw_analog : List (String × Json))
    (hmem : (a_pin, amap) ∈ T.pinmap.analog)
    (hnodup : (T.pinmap.analog.map fun p => p.2.name).Nodup)
    (hra : jsonOrEmptyObj (dictGet frame "analog") = some raw_analog)
    (hr : pyToFloat ((dictGet raw_analog a_pin).getD Json.null) = some r)
    (hcl : dictGet T.analog_clamp amap.name = some clamp)
    (hem : dictGet T.analog_ema amap.name = some ema)
    (hT : T.transform frame now = some (snap, T2)) :
    jGet2 snap "analog" amap.name =
      some (Json.obj [("raw", Json.int (ratTrunc r)),
        ("smooth", Json.num (pyRound (ema.update (clamp.update r).1).1 2)),
        ("norm", Json.num (pyRound
          (normalize_analog (ema.update (clamp.update r).1).1 amap) 4))]) := by
  unfold VehicleStateTransformer.transform at hT
  cases hin : jsonOrEmptyObj (dictGet frame "inputs") with
  | none => rw [hin] at hT; simp at hT
  | some raw_inputs =>
    rw [hin, hra] at hT
    dsimp only at hT
    cases hdig : transformDigitalGo raw_inputs now [] [] T.dig_stab T.flash
        T.pinmap.digital with
    | none => rw [hdig] at hT; simp at hT
    | some dres =>
      obtain ⟨named, flashing, dig2, fl2⟩ := dres
      rw [hdig] at hT
      dsimp only at hT
      cases han : transformAnalogGo raw_analog [] T.analog_clamp T.analog_ema
          T.pinmap.analog with
      | none => rw [han] at hT; simp at hT
      | some ares =>
        obtain ⟨aout, cl2, em2⟩ := ares
        rw [han] at hT
        dsimp only at hT
        cases hs : pyToInt ((dictGet frame "seq").getD (Json.int 0)) with
        | none => rw [hs] at hT; simp at hT
        | some seqv =>
          cases hu : pyToInt ((dictGet frame "uptime_ms").getD (Json.int 0)) with
          | none => rw [hs, hu] at hT; simp at hT
          | some uv =>
            cases hh : pyToInt ((dictGet frame "heartbeat").getD (Json.int 0)) with
            | none => rw [hs, hu, hh] at hT; simp at hT
            | some hv =>
              rw [hs, hu, hh] at hT
              dsimp only at hT
              have hsnap := ((Prod.mk.injEq _ _ _ _).mp (Option.some.inj hT)).1
              rw [← hsnap]
              exact transformAnalogGo_mem_entry raw_analog T.pinmap.analog []
                T.analog_clamp T.analog_ema (aout, cl2, em2) a_pin amap r clamp ema
                hmem hnodup rfl hr hcl hem han

/-- The fuel-sender channel configuration used by concrete runs. -/
def amapC3 : AnalogMap := { name := "fuel_sender_raw" }

/-- A transformer mapping the single analog pin `A0`. -/
def TC3 : VehicleStateTransformer :=
  mkTransformer { digital := [], analog := [("A0", amapC3)] }

/-- A frame carrying the sample `A0 = 500`. -/
def frameC3 : List (String × Json) :=
  [("type", Json.str "vehicle_inputs"), ("analog", Json.obj [("A0", Json.int 500)])]

/-- Transformer snapshot for `frameC3`. -/
def snapC3 : Json := (TC3.transform frameC3 0).elim Json.null Prod.fst

/-- Transformer state after `frameC3`. -/
def TC3b : VehicleStateTransformer :=
  match TC3.transform frameC3 0 with
  | some p => p.2
  | none => TC3

/-- Witness for `transform_analog_pipeline`: the `A0 = 500` sample flows
through clamp, EMA and normalization into the `fuel_sender_raw` entry. -/
theorem transform_analog_pipeline_witness :
    TC3.transform frameC3 0 = some (snapC3, TC3b) ∧
    jGet2 snapC3 "analog" "fuel_sender_raw" =
      some (Json.obj [("raw", Json.int (ratTrunc ((500 : Int) : ℚ))),
        ("smooth", Json.num (pyRound ((({ alpha := 1/4 } : EMA).update
          ((({ max_step := 120 } : OutlierClamp).update ((500 : Int) : ℚ)).1)).1) 2)),
        ("norm", Json.num (pyRound (normalize_analog ((({ alpha := 1/4 } : EMA).update
          ((({ max_step := 120 } : OutlierClamp).update
            ((500 : Int) : ℚ)).1)).1) amapC3) 4))]) := by
  have hT : TC3.transform frameC3 0 = some (snapC3, TC3b) := rfl
  refine ⟨hT, ?_⟩
  exact transform_analog_pipeline TC3 frameC3 0 snapC3 TC3b "A0" amapC3
    ((500 : Int) : ℚ) { max_step := 120 } { alpha := 1/4 } [("A0", Json.int 500)]
    (by decide) (by decide) rfl rfl rfl rfl hT

/-! ## C4 — missing or unparsable analog samples -/

/-- **C4** (amended): the two implementations disagree on the policy.  When
a mapped analog channel's sample is missing, `null`, or unparsable, the
transformer *omits* the channel's entry entirely — its step of the analog
loop is the identity, so its own filter state is untouched and the other
channels are processed exactly as if the channel had not existed — while the
vehicle_hub builder emits the entry as the null raw/smooth/norm triple and
likewise leaves its smoothing state unchanged (so other channels are
unaffected in both paths). -/
theorem missing_analog_policy (raw_analog : List (String × Json))
    (out : List (String × Json)) (cl : List (String × OutlierClamp))
    (em : List (String × EMA)) (a_pin : String) (amap : AnalogMap)
    (rest : List (String × AnalogMap))
    (st : List (String × Option ℚ)) (analog : List (String × Json)) (name : String)
    (hskip : pyToFloat ((dictGet raw_analog a_pin).getD Json.null) = none)
    (hskip2 : pyToInt ((dictGet analog name).getD Json.null) = none) :
    transformAnalogGo raw_analog out cl em ((a_pin, amap) :: rest) =
      transformAnalogGo raw_analog out cl em rest ∧
    hubAnalogEntry st analog name = (nullTriple, st) := by
  refine ⟨transformAnalogGo_cons_skip _ _ _ _ _ _ _ hskip, ?_⟩
  unfold hubAnalogEntry
  dsimp only
  by_cases hn : ((dictGet analog name).getD Json.null).isNull = true
  · rw [if_pos hn]
  · rw [if_neg hn, hskip2]

/-- Witness for `missing_analog_policy`: a frame with no analog samples at
all — the transformer's loop step is the identity, the hub's entry is the
null triple with unchanged state. -/
theorem missing_analog_policy_witness :
    pyToFloat ((dictGet ([] : List (String × Json)) "A0").getD Json.null) = none ∧
    pyToInt ((dictGet ([] : List (String × Json)) "A0").getD Json.null) = none ∧
    transformAnalogGo [] [] [("fuel_sender_raw", { max_step := 120 })]
        [("fuel_sender_raw", { alpha := 1/4 })] [("A0", amapC3)] =
      transformAnalogGo [] [] [("fuel_sender_raw", { max_step := 120 })]
        [("fuel_sender_raw", { alpha := 1/4 })] [] ∧
    hubAnalogEntry [] [] "A0" = (nullTriple, []) := by
  have h := missing_analog_policy [] [] [("fuel_sender_raw", { max_step := 120 })]
    [("fuel_sender_raw", { alpha := 1/4 })] "A0" amapC3 [] [] [] "A0" rfl rfl
  exact ⟨rfl, rfl, h.1, h.2⟩

/-- A `vehicle_inputs` frame with no analog object at all. -/
def frameNoAnalog : List (String × Json) := [("type", Json.str "vehicle_inputs")]

/-- **C4** (counterexample): the claim fails as stated on the transformer.
With `A0` mapped to `fuel_sender_raw` and a frame missing the sample, the
produced snapshot contains *no* `fuel_sender_raw` entry at all — rather than
an entry with null raw/smooth/norm. -/
theorem missing_analog_entry_omitted :
    (TC3.transform frameNoAnalog 0).map
      (fun p => (jGet2 p.1 "analog" "fuel_sender_raw").isSome) = some false ∧
    (TC3.transform frameNoAnalog 0).isSome = true := by
  exact ⟨rfl, rfl⟩
